import Mathlib

/-!
Shallow embedding of the service-lifecycle orchestrator in
`module-sys/SystemManager/SystemManagerCommon.cpp` (namespace `sys`).

Services are identified by name (`String`).  The mutable fields of
`SystemManagerCommon` that the lifecycle logic reads and writes are
collected in `SMState`; every handler of the source becomes a function
`SMState → SMState × List Action`, where the returned `List Action`
records, in program order, the externally visible effects the handler
performs (log lines, bus sends, timer arm/disarm, synchronous close
requests, kills).  The outcome of the synchronous
`RequestServiceClose` call for a given service is an environment
parameter `closeOk : String → Bool` (true = the request returned
success).
-/

namespace MuditaSys

/-- `sys::SystemManagerCommon::State` — the lifecycle states used by `Run`,
`CloseServices`, `RebootHandler` and the message handlers. -/
inductive State where
  | Running
  | Shutdown
  | ShutdownReady
  | Reboot
  | RebootToUpdate
  deriving DecidableEq, Repr

/-- `sys::CloseReason` — the tagged reason attached to a close. -/
inductive CloseReason where
  | RegularPowerDown
  | LowBattery
  | SystemBrownout
  | Reboot
  | Update
  | Restore
  deriving DecidableEq, Repr

/-- `Store::Battery::LevelState` — the externally observed battery level. -/
inductive LevelState where
  | Normal
  | Shutdown
  | CriticalCharging
  | CriticalNotCharging
  deriving DecidableEq, Repr

/-- `phone_modes::Tethering` — requested tethering state. -/
inductive Tethering where
  | On
  | Off
  deriving DecidableEq, Repr

/-- Externally visible effects performed by the handlers, in program order. -/
inductive Action where
  /-- the `LOG_DEBUG("Invoking closing procedure...")` line opening
  `CloseSystemHandler`; marks one invocation of the close procedure -/
  | logClosingProcedure
  /-- `lowBatteryShutdownDelay.stop()` -/
  | stopLowBatteryTimer
  /-- `lowBatteryShutdownDelay.start()` -/
  | startLowBatteryTimer
  /-- `bus.sendUnicast(ServiceCloseReasonMessage(reason), target)` in
  `preCloseRoutine` -/
  | sendCloseReason (target : String) (reason : CloseReason)
  /-- `servicesPreShutdownRoutineTimeout.start()` -/
  | startWatchdog
  /-- `servicesPreShutdownRoutineTimeout.stop()` -/
  | stopWatchdog
  /-- the `LOG_INFO("Service: %s did not reported before timeout")` line of
  `CloseServices` -/
  | logNonResponsive (name : String)
  /-- synchronous `RequestServiceClose(name)` (graceful close request) -/
  | requestServiceClose (name : String)
  /-- `kill(service)` — `DeinitHandler()` then `CloseHandler()` -/
  | kill (name : String)
  /-- the `LOG_INFO("Tethering state change refused - battery too low")` line -/
  | logTetheringRefused
  /-- `bus.sendUnicast(TetheringQuestionRequest, appmgr)` -/
  | sendTetheringQuestionRequest
  /-- `bus.sendUnicast(TetheringQuestionAbort, appmgr)` -/
  | sendTetheringQuestionAbort
  /-- `bus.sendUnicast(sevm::RequestPhoneModeForceUpdate, evt_manager)` -/
  | sendPhoneModeForceUpdate
  /-- `bus.sendUnicast(CriticalBatteryLevelNotification(true, charging), appmgr)` -/
  | sendCriticalBatteryLevel (charging : Bool)
  /-- `bus.sendUnicast(CriticalBatteryLevelNotification(false), appmgr)` -/
  | sendBatteryNormalLevel
  /-- `CellularServiceAPI::ChangeModulePowerState(on/off)` -/
  | cellularPowerChange (powerOn : Bool)
  deriving DecidableEq, Repr

/-- The send actions of the close broadcast (`ServiceCloseReasonMessage`). -/
def Action.isCloseBroadcast : Action → Bool
  | Action.sendCloseReason _ _ => true
  | _ => false

/-- Actions of the destroy pass: a graceful close request or a kill. -/
def Action.isDestroyAct : Action → Bool
  | Action.requestServiceClose _ => true
  | Action.kill _ => true
  | _ => false

/-- Outbound bus messages / collaborator calls (as opposed to log lines and
timer arm/disarm, which are invisible to other services). -/
def Action.isOutboundSend : Action → Bool
  | Action.sendCloseReason _ _ => true
  | Action.sendTetheringQuestionRequest => true
  | Action.sendTetheringQuestionAbort => true
  | Action.sendPhoneModeForceUpdate => true
  | Action.sendCriticalBatteryLevel _ => true
  | Action.sendBatteryNormalLevel => true
  | Action.cellularPowerChange _ => true
  | _ => false

/-- The mutable fields of `SystemManagerCommon` read and written by the
lifecycle logic: the system state, the ordered registry of running system
services (`servicesList`, names in start order), the pending-acknowledgment
register (`readyForCloseRegister`), whether the shutdown watchdog timer
(`servicesPreShutdownRoutineTimeout`) is armed, whether the low-battery
shutdown-delay timer (`lowBatteryShutdownDelay`) is armed, and whether
tethering is currently enabled (`phoneModeSubject`). -/
structure SMState where
  state : State
  servicesList : List String
  readyForCloseRegister : List String
  watchdogActive : Bool
  lowBatteryDelayActive : Bool
  tethering : Bool
  deriving DecidableEq, Repr

namespace name

/-- `service::name::service_desktop` -/
def service_desktop : String := "ServiceDesktop"
/-- `service::name::evt_manager` -/
def evt_manager : String := "EventManager"
/-- `service::name::gui` -/
def gui : String := "ServiceGUI"
/-- `service::name::db` -/
def db : String := "ServiceDB"
/-- `service::name::eink` -/
def eink : String := "ServiceEink"
/-- `service::name::appmgr` -/
def appmgr : String := "ApplicationManager"

end name

namespace state

/-- `sys::state::update::whitelist` -/
def updateWhitelist : List String :=
  [name.service_desktop, name.evt_manager, name.gui, name.db, name.eink, name.appmgr]

/-- `sys::state::restore::whitelist` -/
def restoreWhitelist : List String :=
  [name.service_desktop, name.evt_manager, name.gui, name.eink, name.appmgr]

/-- `sys::state::regularClose::whitelist` -/
def regularCloseWhitelist : List String := [name.evt_manager]

/-- `sys::state::isOnWhitelist` — membership of the name in the list. -/
def isOnWhitelist (list : List String) (serviceName : String) : Bool :=
  list.contains serviceName

end state

/-- `SystemManagerCommon::preCloseRoutine` — for every registered service, in
registry order, send it the close-reason message and append its name to the
pending-acknowledgment register; then create and start the shutdown watchdog
timer. -/
def preCloseRoutine (closeReason : CloseReason) (st : SMState) : SMState × List Action :=
  ({ st with
      readyForCloseRegister := st.readyForCloseRegister ++ st.servicesList,
      watchdogActive := true },
   st.servicesList.map (fun s => Action.sendCloseReason s closeReason) ++
     [Action.startWatchdog])

/-- `SystemManagerCommon::CloseSystemHandler` — log, stop the low-battery
shutdown-delay timer, reverse the service registry in place, then run
`preCloseRoutine closeReason`. -/
def CloseSystemHandler (closeReason : CloseReason) (st : SMState) : SMState × List Action :=
  let st1 : SMState := { st with lowBatteryDelayActive := false }
  let st2 : SMState := { st1 with servicesList := st1.servicesList.reverse }
  let r := preCloseRoutine closeReason st2
  (r.1, Action.logClosingProcedure :: Action.stopLowBatteryTimer :: r.2)

/-- The loop body of `SystemManagerCommon::DestroyServices`: walk the service
list; a whitelisted service is kept; otherwise issue the graceful close
request (`RequestServiceClose`), on failure `kill` the service, and in either
case erase it from the list. Returns the surviving list and the actions. -/
def DestroyServicesLoop (whitelist : List String) (closeOk : String → Bool) :
    List String → List String × List Action
  | [] => ([], [])
  | s :: rest =>
    let r := DestroyServicesLoop whitelist closeOk rest
    if state.isOnWhitelist whitelist s then (s :: r.1, r.2)
    else if closeOk s then (r.1, Action.requestServiceClose s :: r.2)
    else (r.1, Action.requestServiceClose s :: Action.kill s :: r.2)

/-- `SystemManagerCommon::DestroyServices` applied to the registry field. -/
def DestroyServices (whitelist : List String) (closeOk : String → Bool)
    (st : SMState) : SMState × List Action :=
  let r := DestroyServicesLoop whitelist closeOk st.servicesList
  ({ st with servicesList := r.1 }, r.2)

/-- `SystemManagerCommon::CloseServices` — log every name still pending as
non-responsive, clear the register unconditionally, destroy all services not
on the regular-close whitelist, and set the state to `Shutdown`. -/
def CloseServices (closeOk : String → Bool) (st : SMState) : SMState × List Action :=
  let logs := st.readyForCloseRegister.map Action.logNonResponsive
  let st1 : SMState := { st with readyForCloseRegister := [] }
  let r := DestroyServices state.regularCloseWhitelist closeOk st1
  ({ r.1 with state := State.Shutdown }, logs ++ r.2)

/-- The `servicesPreShutdownRoutineTimeout` periodic-timer callback installed
in `preCloseRoutine`: it invokes `CloseServices`. -/
def watchdogFire (closeOk : String → Bool) (st : SMState) : SMState × List Action :=
  CloseServices closeOk st

/-- `SystemManagerCommon::readyToCloseHandler` — if the register is non-empty
and the watchdog timer is active, erase every occurrence of the sender's name
from the register; if the register becomes empty, stop the watchdog and
invoke `CloseServices`. -/
def readyToCloseHandler (closeOk : String → Bool) (sender : String)
    (st : SMState) : SMState × List Action :=
  if !st.readyForCloseRegister.isEmpty && st.watchdogActive then
    let st1 : SMState :=
      { st with readyForCloseRegister :=
          st.readyForCloseRegister.filter (fun n => n != sender) }
    if st1.readyForCloseRegister.isEmpty then
      let st2 : SMState := { st1 with watchdogActive := false }
      let r := CloseServices closeOk st2
      (r.1, Action.stopWatchdog :: r.2)
    else (st1, [])
  else (st, [])

/-- `SystemManagerCommon::RebootHandler` — invoke
`CloseSystemHandler(CloseReason::Reboot)`, then set the state to the target
(`Reboot` or `RebootToUpdate`). -/
def RebootHandler (target : State) (st : SMState) : SMState × List Action :=
  let r := CloseSystemHandler CloseReason.Reboot st
  ({ r.1 with state := target }, r.2)

/-- `SystemManagerCommon::UpdateSystemHandler` — reverse the registry, then
destroy all services not on the update whitelist. -/
def UpdateSystemHandler (closeOk : String → Bool) (st : SMState) : SMState × List Action :=
  let st1 : SMState := { st with servicesList := st.servicesList.reverse }
  DestroyServices state.updateWhitelist closeOk st1

/-- `SystemManagerCommon::RestoreSystemHandler` — reverse the registry, then
destroy all services not on the restore whitelist. -/
def RestoreSystemHandler (closeOk : String → Bool) (st : SMState) : SMState × List Action :=
  let st1 : SMState := { st with servicesList := st.servicesList.reverse }
  DestroyServices state.restoreWhitelist closeOk st1

/-- The three round types of the destroy pass and the whitelist each uses. -/
inductive RoundType where
  | update
  | restore
  | regularClose
  deriving DecidableEq, Repr

/-- The whitelist governing each round type. -/
def whitelistOf : RoundType → List String
  | RoundType.update => state.updateWhitelist
  | RoundType.restore => state.restoreWhitelist
  | RoundType.regularClose => state.regularCloseWhitelist

/-- The handler that performs the destroy pass of each round type:
`UpdateSystemHandler`, `RestoreSystemHandler`, and `CloseServices` (the
completion of the regular close round). -/
def roundDestroyPass (round : RoundType) (closeOk : String → Bool)
    (st : SMState) : SMState × List Action :=
  match round with
  | RoundType.update => UpdateSystemHandler closeOk st
  | RoundType.restore => RestoreSystemHandler closeOk st
  | RoundType.regularClose => CloseServices closeOk st

/-- `SystemManagerCommon::batteryShutdownLevelAction` — log and invoke
`CloseSystemHandler(CloseReason::LowBattery)`. -/
def batteryShutdownLevelAction (st : SMState) : SMState × List Action :=
  CloseSystemHandler CloseReason.LowBattery st

/-- The `sevm::BatteryStateChangeMessage` handler installed by
`postStartRoutine`: dispatch on the current battery level state. -/
def BatteryStateChangeHandler (level : LevelState) (st : SMState) : SMState × List Action :=
  match level with
  | LevelState.Normal =>
      (st, [Action.cellularPowerChange true, Action.sendBatteryNormalLevel])
  | LevelState.Shutdown => batteryShutdownLevelAction st
  | LevelState.CriticalCharging =>
      (st, [Action.cellularPowerChange false, Action.sendCriticalBatteryLevel true])
  | LevelState.CriticalNotCharging =>
      (st, [Action.cellularPowerChange false, Action.sendCriticalBatteryLevel false])

/-- Process a sequence of `BatteryStateChangeMessage`s, threading the state
and concatenating the action traces. -/
def processBatteryMessages : List LevelState → SMState → SMState × List Action
  | [], st => (st, [])
  | l :: ls, st =>
    let r := BatteryStateChangeHandler l st
    let rest := processBatteryMessages ls r.1
    (rest.1, r.2 ++ rest.2)

/-- Number of invocations of the close procedure visible in a trace (each
`CloseSystemHandler` call emits exactly one `logClosingProcedure`). -/
def closeInvocations (acts : List Action) : Nat :=
  (acts.filter (fun a => a == Action.logClosingProcedure)).length

/-- Number of transitions INTO battery level `Shutdown` along a sequence of
level observations starting from `prev` (the spec's "once per transition
into that level" counting). -/
def transitionsIntoShutdownLevel (prev : LevelState) : List LevelState → Nat
  | [] => 0
  | l :: ls =>
    (if l == LevelState.Shutdown && prev != LevelState.Shutdown then 1 else 0) +
      transitionsIntoShutdownLevel l ls

/-- The `sevm::BatteryStatusChangeMessage` handler of `InitHandler`: in state
`Shutdown` with a discharging battery, move to `ShutdownReady`. -/
def BatteryStatusChangeHandler (discharging : Bool) (st : SMState) : SMState :=
  if st.state == State.Shutdown && discharging then
    { st with state := State.ShutdownReady }
  else st

/-- The `sevm::KbdMessage` handler of `InitHandler`: a key press received in
state `Shutdown` (red key, forwarded by the event manager) moves to
`Reboot`. -/
def KbdMessageHandler (st : SMState) : SMState :=
  if st.state == State.Shutdown then { st with state := State.Reboot } else st

/-- What the terminal `switch (state)` at the end of
`SystemManagerCommon::Run` does. -/
inductive TerminalAction where
  | reboot
  | powerOff
  | rebootToUpdate
  | fatalExit
  deriving DecidableEq, Repr

/-- The terminal `switch (state)` of `Run`: `Reboot` reboots, `ShutdownReady`
powers off, `RebootToUpdate` reboots into the updater, and any other state
hits the `default:` branch which logs a fatal error and calls `exit(1)`. -/
def terminalSwitch : State → TerminalAction
  | State.Reboot => TerminalAction.reboot
  | State.ShutdownReady => TerminalAction.powerOff
  | State.RebootToUpdate => TerminalAction.rebootToUpdate
  | State.Running => TerminalAction.fatalExit
  | State.Shutdown => TerminalAction.fatalExit

/-- The condition under which the two message loops of `Run` have both
exited: the first loop runs while the state is `Running`, the second while it
is `Shutdown`. -/
def runLoopsExited (s : State) : Bool :=
  s != State.Running && s != State.Shutdown

/-- `phoneModeSubject->setTetheringMode(Tethering::Off)` — clears the
tethering flag and reports whether the mode actually changed. -/
def setTetheringModeOff (st : SMState) : SMState × Bool :=
  ({ st with tethering := false }, st.tethering)

/-- `SystemManagerCommon::handleTetheringStateRequest` — below-Normal battery:
log a refusal and return (no message sent); battery Normal and request On:
send the confirmation question to the application manager; request Off: apply
`setTetheringMode(Off)` and, if the mode changed, send the forced phone-mode
refresh to the event manager, otherwise send the question-abort message. -/
def handleTetheringStateRequest (level : LevelState) (requested : Tethering)
    (st : SMState) : SMState × List Action :=
  if level != LevelState.Normal then (st, [Action.logTetheringRefused])
  else if requested == Tethering.On then
    (st, [Action.sendTetheringQuestionRequest])
  else
    let r := setTetheringModeOff st
    if r.2 then (r.1, [Action.sendPhoneModeForceUpdate])
    else (r.1, [Action.sendTetheringQuestionAbort])

/-! ## Helper lemmas -/

lemma filter_isCloseBroadcast_map (l : List String) (r : CloseReason) :
    (l.map (fun s => Action.sendCloseReason s r)).filter Action.isCloseBroadcast
      = l.map (fun s => Action.sendCloseReason s r) := by
  induction l with
  | nil => rfl
  | cons a t ih => simp [List.filter_cons, Action.isCloseBroadcast, ih]

lemma filter_isDestroyAct_map_send (l : List String) (r : CloseReason) :
    (l.map (fun s => Action.sendCloseReason s r)).filter Action.isDestroyAct = [] := by
  induction l with
  | nil => rfl
  | cons a t ih => simp [List.filter_cons, Action.isDestroyAct, ih]

lemma destroyLoop_fst (wl : List String) (ok : String → Bool) (l : List String) :
    (DestroyServicesLoop wl ok l).1 = l.filter (fun s => state.isOnWhitelist wl s) := by
  induction l with
  | nil => rfl
  | cons a t ih =>
    cases hwl : state.isOnWhitelist wl a <;> cases hok : ok a <;>
      simp [DestroyServicesLoop, List.filter_cons, hwl, hok, ih]

lemma destroyLoop_request_mem (wl : List String) (ok : String → Bool)
    (l : List String) (s : String) :
    Action.requestServiceClose s ∈ (DestroyServicesLoop wl ok l).2 ↔
      s ∈ l ∧ state.isOnWhitelist wl s = false := by
  induction l with
  | nil => simp [DestroyServicesLoop]
  | cons a t ih =>
    cases hwl : state.isOnWhitelist wl a <;> cases hok : ok a <;>
      simp [DestroyServicesLoop, hwl, hok, ih, List.mem_cons] <;> aesop

lemma destroyLoop_kill_mem (wl : List String) (ok : String → Bool)
    (l : List String) (s : String) :
    Action.kill s ∈ (DestroyServicesLoop wl ok l).2 ↔
      s ∈ l ∧ state.isOnWhitelist wl s = false ∧ ok s = false := by
  induction l with
  | nil => simp [DestroyServicesLoop]
  | cons a t ih =>
    cases hwl : state.isOnWhitelist wl a <;> cases hok : ok a <;>
      simp [DestroyServicesLoop, hwl, hok, ih, List.mem_cons] <;> aesop

lemma destroyLoop_request_count (wl : List String) (ok : String → Bool)
    (l : List String) (s : String) (hnd : l.Nodup) (hmem : s ∈ l)
    (hwl : state.isOnWhitelist wl s = false) :
    (DestroyServicesLoop wl ok l).2.count (Action.requestServiceClose s) = 1 := by
  induction l with
  | nil => cases hmem
  | cons a t ih =>
    rw [List.nodup_cons] at hnd
    rcases List.mem_cons.mp hmem with rfl | hmem2
    · have hnot : Action.requestServiceClose s ∉ (DestroyServicesLoop wl ok t).2 := by
        rw [destroyLoop_request_mem]
        rintro ⟨h1, _⟩
        exact hnd.1 h1
      have hz : (DestroyServicesLoop wl ok t).2.count (Action.requestServiceClose s) = 0 :=
        List.count_eq_zero.mpr hnot
      cases hok : ok s <;>
        simp [DestroyServicesLoop, hwl, hok, List.count_cons, hz]
    · have hne : a ≠ s := fun h => hnd.1 (h ▸ hmem2)
      have hr := ih hnd.2 hmem2
      cases hwla : state.isOnWhitelist wl a <;> cases hok : ok a <;>
        simp [DestroyServicesLoop, hwla, hok, List.count_cons, hr, hne]

lemma logs_count_request (l : List String) (s : String) :
    (l.map Action.logNonResponsive).count (Action.requestServiceClose s) = 0 := by
  rw [List.count_eq_zero]
  simp

lemma logs_not_mem_request (l : List String) (s : String) :
    Action.requestServiceClose s ∉ l.map Action.logNonResponsive := by
  simp

lemma logs_not_mem_kill (l : List String) (s : String) :
    Action.kill s ∉ l.map Action.logNonResponsive := by
  simp

/-! ## Claim theorems -/

/-- Claim C1: initiating a close (`CloseSystemHandler`, any reason) first
reverses the service registry, then broadcasts the close-reason message to
every registered service in that reversed (last-started, first-notified)
order, appending each notified service's name to the pending-acknowledgment
register; in particular services started in order `[A, B, C]` are notified in
order `[C, B, A]`. -/
theorem close_broadcast_lifo_order (r : CloseReason) (st : SMState) :
    ((CloseSystemHandler r st).1.servicesList = st.servicesList.reverse)
    ∧ ((CloseSystemHandler r st).1.readyForCloseRegister
        = st.readyForCloseRegister ++ st.servicesList.reverse)
    ∧ ((CloseSystemHandler r st).2.filter Action.isCloseBroadcast
        = st.servicesList.reverse.map (fun s => Action.sendCloseReason s r))
    ∧ ((CloseSystemHandler r
          { state := State.Running, servicesList := ["A", "B", "C"],
            readyForCloseRegister := [], watchdogActive := false,
            lowBatteryDelayActive := false, tethering := false }).2.filter
          Action.isCloseBroadcast
        = [Action.sendCloseReason "C" r, Action.sendCloseReason "B" r,
           Action.sendCloseReason "A" r]) := by
  refine ⟨rfl, rfl, ?_, ?_⟩
  · simp [CloseSystemHandler, preCloseRoutine, List.filter_cons, List.filter_append,
      Action.isCloseBroadcast, filter_isCloseBroadcast_map]
  · simp [CloseSystemHandler, preCloseRoutine, List.filter_cons, List.filter_append,
      Action.isCloseBroadcast, filter_isCloseBroadcast_map]

/-- Claim C10: every invocation of the close procedure stops the low-battery
shutdown-delay timer before broadcasting the close notifications: the
resulting state has the delay timer disarmed, and in the action trace the
`stopLowBatteryTimer` action precedes every close-reason send. -/
theorem close_stops_low_battery_delay_first (r : CloseReason) (st : SMState) :
    ((CloseSystemHandler r st).1.lowBatteryDelayActive = false)
    ∧ (∀ n t rr,
        (CloseSystemHandler r st).2.get? n = some (Action.sendCloseReason t rr) →
        ∃ m, m < n ∧
          (CloseSystemHandler r st).2.get? m = some Action.stopLowBatteryTimer) := by
  constructor
  · rfl
  · intro n t rr h
    match n with
    | 0 => simp [CloseSystemHandler, preCloseRoutine] at h
    | 1 => simp [CloseSystemHandler, preCloseRoutine] at h
    | Nat.succ (Nat.succ k) =>
      refine ⟨1, by omega, ?_⟩
      simp [CloseSystemHandler, preCloseRoutine]

/-- Witness for C10 at a concrete state with one registered service: the
close-reason send sits at index 2 of the trace and the timer stop strictly
before it. -/
theorem close_stops_low_battery_delay_first_witness :
    ((CloseSystemHandler CloseReason.RegularPowerDown
        { state := State.Running, servicesList := ["svcA"],
          readyForCloseRegister := [], watchdogActive := false,
          lowBatteryDelayActive := true, tethering := false }).1.lowBatteryDelayActive
      = false)
    ∧ (∃ m, m < 2 ∧
        (CloseSystemHandler CloseReason.RegularPowerDown
          { state := State.Running, servicesList := ["svcA"],
            readyForCloseRegister := [], watchdogActive := false,
            lowBatteryDelayActive := true, tethering := false }).2.get? m
          = some Action.stopLowBatteryTimer) :=
  ⟨(close_stops_low_battery_delay_first CloseReason.RegularPowerDown _).1,
   (close_stops_low_battery_delay_first CloseReason.RegularPowerDown
      { state := State.Running, servicesList := ["svcA"],
        readyForCloseRegister := [], watchdogActive := false,
        lowBatteryDelayActive := true, tethering := false }).2
     2 "svcA" CloseReason.RegularPowerDown (by rfl)⟩

/-- Claim C2: for each round type (update, restore, regular-close), after the
destroy pass a service remains registered iff it was registered and its name
is on that round's whitelist; every non-whitelisted registered service
receives the synchronous graceful close request (exactly once — no retry — if
the registry had no duplicate names); and it is killed (deinitialize then
close) iff its graceful close request did not return success. -/
theorem destroy_round_whitelist_preservation (round : RoundType)
    (closeOk : String → Bool) (st : SMState) (s : String) :
    (s ∈ (roundDestroyPass round closeOk st).1.servicesList ↔
       s ∈ st.servicesList ∧ state.isOnWhitelist (whitelistOf round) s = true)
    ∧ (Action.requestServiceClose s ∈ (roundDestroyPass round closeOk st).2 ↔
       s ∈ st.servicesList ∧ state.isOnWhitelist (whitelistOf round) s = false)
    ∧ (Action.kill s ∈ (roundDestroyPass round closeOk st).2 ↔
       s ∈ st.servicesList ∧ state.isOnWhitelist (whitelistOf round) s = false ∧
         closeOk s = false)
    ∧ (st.servicesList.Nodup → s ∈ st.servicesList →
       state.isOnWhitelist (whitelistOf round) s = false →
       (roundDestroyPass round closeOk st).2.count (Action.requestServiceClose s)
         = 1) := by
  cases round
  case update =>
    refine ⟨?_, ?_, ?_, ?_⟩
    · simp [roundDestroyPass, UpdateSystemHandler, DestroyServices, destroyLoop_fst,
        whitelistOf, List.mem_filter]
    · simp [roundDestroyPass, UpdateSystemHandler, DestroyServices,
        destroyLoop_request_mem, whitelistOf]
    · simp [roundDestroyPass, UpdateSystemHandler, DestroyServices,
        destroyLoop_kill_mem, whitelistOf]
    · intro hnd hmem hwl
      simp only [roundDestroyPass, UpdateSystemHandler, DestroyServices]
      exact destroyLoop_request_count _ closeOk _ s
        (by simpa using hnd) (by simpa using hmem) hwl
  case restore =>
    refine ⟨?_, ?_, ?_, ?_⟩
    · simp [roundDestroyPass, RestoreSystemHandler, DestroyServices, destroyLoop_fst,
        whitelistOf, List.mem_filter]
    · simp [roundDestroyPass, RestoreSystemHandler, DestroyServices,
        destroyLoop_request_mem, whitelistOf]
    · simp [roundDestroyPass, RestoreSystemHandler, DestroyServices,
        destroyLoop_kill_mem, whitelistOf]
    · intro hnd hmem hwl
      simp only [roundDestroyPass, RestoreSystemHandler, DestroyServices]
      exact destroyLoop_request_count _ closeOk _ s
        (by simpa using hnd) (by simpa using hmem) hwl
  case regularClose =>
    refine ⟨?_, ?_, ?_, ?_⟩
    · simp [roundDestroyPass, CloseServices, DestroyServices, destroyLoop_fst,
        whitelistOf, List.mem_filter]
    · simp [roundDestroyPass, CloseServices, DestroyServices,
        destroyLoop_request_mem, whitelistOf, List.mem_append,
        logs_not_mem_request]
    · simp [roundDestroyPass, CloseServices, DestroyServices,
        destroyLoop_kill_mem, whitelistOf, List.mem_append, logs_not_mem_kill]
    · intro hnd hmem hwl
      simp only [roundDestroyPass, CloseServices, DestroyServices, whitelistOf,
        List.count_append, logs_count_request]
      rw [destroyLoop_request_count _ closeOk _ s hnd hmem (by simpa [whitelistOf] using hwl)]

/-- Witness for C2 at a concrete update round: a non-whitelisted service
`svcA` with a failing close request is removed, requested once, and killed. -/
theorem destroy_round_whitelist_preservation_witness :
    (Action.requestServiceClose "svcA" ∈
        (roundDestroyPass RoundType.update (fun _ => false)
          (⟨State.Running, ["svcA"], [], false, false, false⟩ : SMState)).2)
    ∧ ((roundDestroyPass RoundType.update (fun _ => false)
          (⟨State.Running, ["svcA"], [], false, false, false⟩ : SMState)).2.count
          (Action.requestServiceClose "svcA") = 1) :=
  ⟨(destroy_round_whitelist_preservation RoundType.update (fun _ => false)
      (⟨State.Running, ["svcA"], [], false, false, false⟩ : SMState) "svcA").2.1.mpr
     (by decide),
   (destroy_round_whitelist_preservation RoundType.update (fun _ => false)
      (⟨State.Running, ["svcA"], [], false, false, false⟩ : SMState) "svcA").2.2.2
     (by decide) (by decide) (by decide)⟩

/-- Counterexample to claim C3: in a concrete round where `svcB` is still
pending when the watchdog fires, `svcB` is NOT excluded from the destroy
pass — `CloseServices` clears the register but `DestroyServices` still walks
the full registry, so the non-acknowledging `svcB` receives a graceful close
request and is removed. -/
theorem watchdog_nonack_in_destroy_pass_cex :
    ("svcB" ∈ (⟨State.Running, ["svcB", "EventManager"], ["svcB"], true, false,
        false⟩ : SMState).readyForCloseRegister)
    ∧ (Action.requestServiceClose "svcB" ∈
        (watchdogFire (fun _ => true)
          (⟨State.Running, ["svcB", "EventManager"], ["svcB"], true, false,
            false⟩ : SMState)).2)
    ∧ ("svcB" ∉
        (watchdogFire (fun _ => true)
          (⟨State.Running, ["svcB", "EventManager"], ["svcB"], true, false,
            false⟩ : SMState)).1.servicesList) := by
  decide

/-- Claim C3 (amended): if the shutdown watchdog fires while the
pending-acknowledgment register is non-empty, every remaining name is logged
as non-responsive and the register is cleared unconditionally; clearing does
not itself kill the non-acknowledgers (a kill happens only for a
non-whitelisted service whose graceful close request fails), but they are not
excluded from the destroy pass: every non-whitelisted registered service,
acknowledged or not, receives the graceful close request. -/
theorem watchdog_clears_register_then_destroys (closeOk : String → Bool)
    (st : SMState) :
    (∀ n ∈ st.readyForCloseRegister,
        Action.logNonResponsive n ∈ (watchdogFire closeOk st).2)
    ∧ ((watchdogFire closeOk st).1.readyForCloseRegister = [])
    ∧ (∀ s, Action.kill s ∈ (watchdogFire closeOk st).2 ↔
        s ∈ st.servicesList ∧
          state.isOnWhitelist state.regularCloseWhitelist s = false ∧
          closeOk s = false)
    ∧ (∀ s ∈ st.servicesList,
        state.isOnWhitelist state.regularCloseWhitelist s = false →
        Action.requestServiceClose s ∈ (watchdogFire closeOk st).2) := by
  refine ⟨?_, rfl, ?_, ?_⟩
  · intro n hn
    simp only [watchdogFire, CloseServices, DestroyServices, List.mem_append]
    exact Or.inl (List.mem_map.mpr ⟨n, hn, rfl⟩)
  · intro s
    simp [watchdogFire, CloseServices, DestroyServices, List.mem_append,
      destroyLoop_kill_mem, logs_not_mem_kill]
  · intro s hs hwl
    simp only [watchdogFire, CloseServices, DestroyServices, List.mem_append]
    exact Or.inr ((destroyLoop_request_mem _ closeOk _ s).mpr ⟨hs, hwl⟩)

/-- Witness for the amended C3 at the counterexample round: the pending
`svcB` is logged non-responsive, the register is cleared, and `svcB` still
receives a graceful close request in the destroy pass. -/
theorem watchdog_clears_register_then_destroys_witness :
    (Action.logNonResponsive "svcB" ∈
        (watchdogFire (fun _ => true)
          (⟨State.Running, ["svcB", "EventManager"], ["svcB"], true, false,
            false⟩ : SMState)).2)
    ∧ ((watchdogFire (fun _ => true)
          (⟨State.Running, ["svcB", "EventManager"], ["svcB"], true, false,
            false⟩ : SMState)).1.readyForCloseRegister = [])
    ∧ (Action.requestServiceClose "svcB" ∈
        (watchdogFire (fun _ => true)
          (⟨State.Running, ["svcB", "EventManager"], ["svcB"], true, false,
            false⟩ : SMState)).2) :=
  ⟨(watchdog_clears_register_then_destroys (fun _ => true)
      (⟨State.Running, ["svcB", "EventManager"], ["svcB"], true, false,
        false⟩ : SMState)).1 "svcB" (by decide),
   (watchdog_clears_register_then_destroys (fun _ => true)
      (⟨State.Running, ["svcB", "EventManager"], ["svcB"], true, false,
        false⟩ : SMState)).2.1,
   (watchdog_clears_register_then_destroys (fun _ => true)
      (⟨State.Running, ["svcB", "EventManager"], ["svcB"], true, false,
        false⟩ : SMState)).2.2.2 "svcB" (by decide) (by decide)⟩

/-- Claim C4: during a shutdown round (watchdog armed), an acknowledgment
erases exactly the sender's name from the pending-acknowledgment register; an
acknowledgment for a name not pending (in particular a duplicate) leaves the
state unchanged and performs no action; and when the register becomes empty
through an acknowledgment, the watchdog is stopped and the destroy phase is
invoked (the state moves to `Shutdown` and the registry is reduced to the
regular-close whitelist). -/
theorem acknowledge_idempotent_completion (closeOk : String → Bool)
    (sender : String) (st : SMState) :
    (st.watchdogActive = true →
        (readyToCloseHandler closeOk sender st).1.readyForCloseRegister
          = st.readyForCloseRegister.filter (fun n => n != sender))
    ∧ (sender ∉ st.readyForCloseRegister →
        readyToCloseHandler closeOk sender st = (st, []))
    ∧ (st.watchdogActive = true → st.readyForCloseRegister ≠ [] →
        st.readyForCloseRegister.filter (fun n => n != sender) = [] →
        (readyToCloseHandler closeOk sender st).1.watchdogActive = false
        ∧ Action.stopWatchdog ∈ (readyToCloseHandler closeOk sender st).2
        ∧ (readyToCloseHandler closeOk sender st).1.state = State.Shutdown
        ∧ (readyToCloseHandler closeOk sender st).1.servicesList
            = st.servicesList.filter
                (fun s => state.isOnWhitelist state.regularCloseWhitelist s)) := by
  refine ⟨?_, ?_, ?_⟩
  · intro hwd
    by_cases hemp : st.readyForCloseRegister.isEmpty
    · have h0 : st.readyForCloseRegister = [] := by
        simpa [List.isEmpty_iff] using hemp
      simp [readyToCloseHandler, hemp, h0]
    · by_cases hdone : (st.readyForCloseRegister.filter (fun n => n != sender)).isEmpty
      · simp only [readyToCloseHandler, hemp, hwd, Bool.not_false, Bool.and_self,
          if_true, hdone, CloseServices, DestroyServices]
        simpa [List.isEmpty_iff] using hdone
      · simp [readyToCloseHandler, hemp, hwd, hdone]
  · intro hno
    have hfix : st.readyForCloseRegister.filter (fun n => n != sender)
        = st.readyForCloseRegister := by
      apply List.filter_eq_self.mpr
      intro a ha
      simp only [bne_iff_ne, ne_eq, decide_eq_true_eq]
      rintro rfl
      exact hno ha
    by_cases hemp : st.readyForCloseRegister.isEmpty
    · simp [readyToCloseHandler, hemp]
    · simp [readyToCloseHandler, hemp, hfix]
  · intro hwd hne hdone
    have hemp : st.readyForCloseRegister.isEmpty = false := by
      simpa [List.isEmpty_iff] using hne
    have hd : (st.readyForCloseRegister.filter (fun n => n != sender)).isEmpty := by
      simp [List.isEmpty_iff, hdone]
    refine ⟨?_, ?_, ?_, ?_⟩ <;>
      simp [readyToCloseHandler, hemp, hwd, hd, CloseServices, DestroyServices,
        destroyLoop_fst]

/-- Witness for C4 at a concrete round: acknowledging the only pending
service `svcA` empties the register, stops the watchdog, and invokes the
destroy phase; an acknowledgment from the non-pending `other` changes
nothing. -/
theorem acknowledge_idempotent_completion_witness :
    ((readyToCloseHandler (fun _ => true) "svcA"
        (⟨State.Running, ["svcA", "EventManager"], ["svcA"], true, false,
          false⟩ : SMState)).1.readyForCloseRegister = [])
    ∧ (readyToCloseHandler (fun _ => true) "other"
        (⟨State.Running, ["svcA", "EventManager"], ["svcA"], true, false,
          false⟩ : SMState)
        = ((⟨State.Running, ["svcA", "EventManager"], ["svcA"], true, false,
            false⟩ : SMState), []))
    ∧ ((readyToCloseHandler (fun _ => true) "svcA"
          (⟨State.Running, ["svcA", "EventManager"], ["svcA"], true, false,
            false⟩ : SMState)).1.watchdogActive = false)
    ∧ ((readyToCloseHandler (fun _ => true) "svcA"
          (⟨State.Running, ["svcA", "EventManager"], ["svcA"], true, false,
            false⟩ : SMState)).1.state = State.Shutdown) :=
  ⟨by
    rw [(acknowledge_idempotent_completion (fun _ => true) "svcA"
      (⟨State.Running, ["svcA", "EventManager"], ["svcA"], true, false,
        false⟩ : SMState)).1 rfl]
    decide,
   (acknowledge_idempotent_completion (fun _ => true) "other"
      (⟨State.Running, ["svcA", "EventManager"], ["svcA"], true, false,
        false⟩ : SMState)).2.1 (by decide),
   ((acknowledge_idempotent_completion (fun _ => true) "svcA"
      (⟨State.Running, ["svcA", "EventManager"], ["svcA"], true, false,
        false⟩ : SMState)).2.2 rfl (by decide) (by decide)).1,
   ((acknowledge_idempotent_completion (fun _ => true) "svcA"
      (⟨State.Running, ["svcA", "EventManager"], ["svcA"], true, false,
        false⟩ : SMState)).2.2 rfl (by decide) (by decide)).2.2.1⟩

/-- Claim C5: from `Running`, a close command reaches `Shutdown` once the
close round completes — whether by watchdog expiry or by the last
acknowledgment; in `Shutdown`, a discharging battery (no pending
acknowledgments) yields `ShutdownReady`; in `Shutdown`, a key press delivered
by the event manager yields `Reboot`. -/
theorem lifecycle_state_reachability (closeOk : String → Bool) (r : CloseReason)
    (sender : String) (st : SMState) :
    (st.state = State.Running →
        (watchdogFire closeOk (CloseSystemHandler r st).1).1.state
          = State.Shutdown)
    ∧ (st.state = State.Running → st.readyForCloseRegister = [] →
        st.servicesList = [sender] →
        (readyToCloseHandler closeOk sender (CloseSystemHandler r st).1).1.state
          = State.Shutdown)
    ∧ (st.state = State.Shutdown → st.readyForCloseRegister = [] →
        (BatteryStatusChangeHandler true st).state = State.ShutdownReady)
    ∧ (st.state = State.Shutdown → (KbdMessageHandler st).state = State.Reboot) := by
  refine ⟨fun _ => rfl, ?_, ?_, ?_⟩
  · intro _ hreg hsl
    simp [CloseSystemHandler, preCloseRoutine, readyToCloseHandler, hreg, hsl,
      CloseServices, DestroyServices]
  · intro h _
    simp [BatteryStatusChangeHandler, h]
  · intro h
    simp [KbdMessageHandler, h]

/-- Witness for C5 at a concrete state: the watchdog path and the
all-acknowledged path both land in `Shutdown`; a discharging battery and a
key press in `Shutdown` land in `ShutdownReady` and `Reboot`. -/
theorem lifecycle_state_reachability_witness :
    ((watchdogFire (fun _ => true)
        (CloseSystemHandler CloseReason.RegularPowerDown
          (⟨State.Running, ["svcA"], [], false, false, false⟩ : SMState)).1).1.state
      = State.Shutdown)
    ∧ ((readyToCloseHandler (fun _ => true) "svcA"
          (CloseSystemHandler CloseReason.RegularPowerDown
            (⟨State.Running, ["svcA"], [], false, false, false⟩ : SMState)).1).1.state
        = State.Shutdown)
    ∧ ((BatteryStatusChangeHandler true
          (⟨State.Shutdown, [], [], false, false, false⟩ : SMState)).state
        = State.ShutdownReady)
    ∧ ((KbdMessageHandler
          (⟨State.Shutdown, [], [], false, false, false⟩ : SMState)).state
        = State.Reboot) :=
  ⟨(lifecycle_state_reachability (fun _ => true) CloseReason.RegularPowerDown "svcA"
      (⟨State.Running, ["svcA"], [], false, false, false⟩ : SMState)).1 rfl,
   (lifecycle_state_reachability (fun _ => true) CloseReason.RegularPowerDown "svcA"
      (⟨State.Running, ["svcA"], [], false, false, false⟩ : SMState)).2.1
     rfl rfl rfl,
   (lifecycle_state_reachability (fun _ => true) CloseReason.RegularPowerDown "svcA"
      (⟨State.Shutdown, [], [], false, false, false⟩ : SMState)).2.2.1 rfl rfl,
   (lifecycle_state_reachability (fun _ => true) CloseReason.RegularPowerDown "svcA"
      (⟨State.Shutdown, [], [], false, false, false⟩ : SMState)).2.2.2 rfl⟩

/-- Counterexample to claim C6: in a concrete `Running` configuration with
one registered service, `RebootHandler` flips the state to `Reboot` while the
close round is still incomplete — the pending-acknowledgment register is
non-empty and no destroy action (graceful close request or kill) has been
performed, so the state does NOT flip only after the full
broadcast/await/escalate/destroy routine completes. -/
theorem reboot_state_flip_before_round_cex :
    ((RebootHandler State.Reboot
        (⟨State.Running, ["svcA"], [], false, false, false⟩ : SMState)).1.state
      = State.Reboot)
    ∧ ((RebootHandler State.Reboot
        (⟨State.Running, ["svcA"], [], false, false, false⟩ : SMState)).1.readyForCloseRegister
      = ["svcA"])
    ∧ ((RebootHandler State.Reboot
        (⟨State.Running, ["svcA"], [], false, false, false⟩ : SMState)).2.filter
        Action.isDestroyAct
      = []) := by
  decide

/-- Claim C6 (amended): an explicit reboot or reboot-to-update request runs
only the broadcast phase of the close routine — stopping the low-battery
timer, reversing the registry, broadcasting `CloseReason::Reboot`, arming the
watchdog — and then immediately flips the state to `Reboot`/`RebootToUpdate`,
without waiting for acknowledgments, escalation, or the destroy pass. -/
theorem reboot_broadcast_then_immediate_flip (target : State) (st : SMState) :
    ((RebootHandler target st).1.state = target)
    ∧ ((RebootHandler target st).1.lowBatteryDelayActive = false)
    ∧ ((RebootHandler target st).1.watchdogActive = true)
    ∧ ((RebootHandler target st).1.readyForCloseRegister
        = st.readyForCloseRegister ++ st.servicesList.reverse)
    ∧ ((RebootHandler target st).2.filter Action.isCloseBroadcast
        = st.servicesList.reverse.map
            (fun s => Action.sendCloseReason s CloseReason.Reboot))
    ∧ ((RebootHandler target st).2.filter Action.isDestroyAct = []) := by
  refine ⟨rfl, rfl, rfl, rfl, ?_, ?_⟩
  · simp [RebootHandler, CloseSystemHandler, preCloseRoutine, List.filter_cons,
      List.filter_append, Action.isCloseBroadcast, filter_isCloseBroadcast_map]
  · simp [RebootHandler, CloseSystemHandler, preCloseRoutine, List.filter_cons,
      List.filter_append, Action.isDestroyAct, filter_isDestroyAct_map_send]

/-- Claim C7: the terminal switch at the end of the main control loop aborts
on every state other than `ShutdownReady`, `Reboot`, `RebootToUpdate`; and
since the two message loops only exit once the state is neither `Running` nor
`Shutdown`, the abort branch is unreachable after a normal loop exit. -/
theorem terminal_switch_fatal_unreachable :
    (∀ s : State, s ≠ State.ShutdownReady → s ≠ State.Reboot →
        s ≠ State.RebootToUpdate → terminalSwitch s = TerminalAction.fatalExit)
    ∧ (∀ s : State, runLoopsExited s = true →
        terminalSwitch s ≠ TerminalAction.fatalExit) := by
  refine ⟨?_, ?_⟩
  · intro s h1 h2 h3
    cases s <;> simp_all [terminalSwitch]
  · intro s hs
    cases s <;> simp_all [runLoopsExited, terminalSwitch]

/-- Witness for C7: `Shutdown` would abort, while `Reboot` — a state in which
the loops can actually exit — does not. -/
theorem terminal_switch_fatal_unreachable_witness :
    (terminalSwitch State.Shutdown = TerminalAction.fatalExit)
    ∧ (terminalSwitch State.Reboot ≠ TerminalAction.fatalExit) :=
  ⟨terminal_switch_fatal_unreachable.1 State.Shutdown (by decide) (by decide)
     (by decide),
   terminal_switch_fatal_unreachable.2 State.Reboot (by decide)⟩

lemma closeInvocations_append (a b : List Action) :
    closeInvocations (a ++ b) = closeInvocations a + closeInvocations b := by
  simp [closeInvocations, List.filter_append]

lemma closeInvocations_map_send (l : List String) (r : CloseReason) :
    (l.map (fun s => Action.sendCloseReason s r)).filter
        (fun a => a == Action.logClosingProcedure) = [] := by
  induction l with
  | nil => rfl
  | cons a t ih => simp [List.filter_cons, ih]

lemma closeInvocations_closeSystemHandler (r : CloseReason) (st : SMState) :
    closeInvocations (CloseSystemHandler r st).2 = 1 := by
  simp [closeInvocations, CloseSystemHandler, preCloseRoutine, List.filter_cons,
    List.filter_append, closeInvocations_map_send]

lemma closeInvocations_battery_handler (l : LevelState) (st : SMState) :
    closeInvocations (BatteryStateChangeHandler l st).2
      = if l == LevelState.Shutdown then 1 else 0 := by
  cases l
  case Normal => simp [BatteryStateChangeHandler, closeInvocations]
  case Shutdown =>
    simpa [BatteryStateChangeHandler, batteryShutdownLevelAction] using
      closeInvocations_closeSystemHandler CloseReason.LowBattery st
  case CriticalCharging => simp [BatteryStateChangeHandler, closeInvocations]
  case CriticalNotCharging => simp [BatteryStateChangeHandler, closeInvocations]

/-- Counterexample to claim C8: two consecutive battery-state-change messages
at level `Shutdown` (one transition into that level, then a repeated tick
while already there) invoke the close procedure twice, not once. -/
theorem battery_shutdown_repeat_close_cex :
    (closeInvocations (processBatteryMessages
        [LevelState.Shutdown, LevelState.Shutdown]
        (⟨State.Running, [], [], false, false, false⟩ : SMState)).2 = 2)
    ∧ (transitionsIntoShutdownLevel LevelState.Normal
        [LevelState.Shutdown, LevelState.Shutdown] = 1) := by
  decide

/-- Claim C8 (amended): every battery-state-change message observed at level
`Shutdown` triggers a close invocation (with reason `LowBattery`) — one per
message, not one per transition into the level: the handler keeps no memory
of the previous level, so the number of close invocations equals the number
of `Shutdown`-level messages processed. -/
theorem battery_shutdown_close_per_message (levels : List LevelState)
    (st : SMState) :
    closeInvocations (processBatteryMessages levels st).2
      = (levels.filter (fun l => l == LevelState.Shutdown)).length := by
  induction levels generalizing st with
  | nil => rfl
  | cons l ls ih =>
    simp only [processBatteryMessages, closeInvocations_append,
      closeInvocations_battery_handler, List.filter_cons, ih]
    cases l <;> simp [Nat.add_comm]

/-- Counterexample to claim C9: a tethering-on request arriving while the
battery level is below Normal is dropped silently — the handler emits no
outbound message at all (only a log line) and leaves the state unchanged, so
the rejection is NOT communicated back to the requester. -/
theorem tethering_low_battery_silent_drop_cex :
    ((handleTetheringStateRequest LevelState.CriticalNotCharging Tethering.On
        (⟨State.Running, [], [], false, false, false⟩ : SMState)).2.filter
        Action.isOutboundSend = [])
    ∧ ((handleTetheringStateRequest LevelState.CriticalNotCharging Tethering.On
        (⟨State.Running, [], [], false, false, false⟩ : SMState)).1
      = (⟨State.Running, [], [], false, false, false⟩ : SMState)) := by
  decide

/-- Claim C9 (amended): a tethering-state change request received while the
battery level is below Normal is rejected silently (a log line only, no
notification back to the requester, no state change); with battery Normal, a
tethering-on request is routed through the confirmation round-trip with the
application layer instead of being applied, a tethering-off request with
tethering currently on is applied immediately and triggers the forced
phone-mode refresh notification, and a tethering-off request with tethering
already off sends the question-abort notification instead. -/
theorem tethering_request_dispatch (level : LevelState) (req : Tethering)
    (st : SMState) :
    (level ≠ LevelState.Normal →
        handleTetheringStateRequest level req st
          = (st, [Action.logTetheringRefused]))
    ∧ (handleTetheringStateRequest LevelState.Normal Tethering.On st
        = (st, [Action.sendTetheringQuestionRequest]))
    ∧ (st.tethering = true →
        handleTetheringStateRequest LevelState.Normal Tethering.Off st
          = ({ st with tethering := false }, [Action.sendPhoneModeForceUpdate]))
    ∧ (st.tethering = false →
        handleTetheringStateRequest LevelState.Normal Tethering.Off st
          = (st, [Action.sendTetheringQuestionAbort])) := by
  refine ⟨?_, ?_, ?_, ?_⟩
  · intro h
    have hb : (level != LevelState.Normal) = true := by simpa [bne_iff_ne] using h
    simp [handleTetheringStateRequest, hb]
  · rfl
  · intro h
    simp [handleTetheringStateRequest, setTetheringModeOff, h]
  · intro h
    cases st
    simp_all [handleTetheringStateRequest, setTetheringModeOff]

/-- Witness for the amended C9: a below-Normal request yields only the log
line, and a Normal tethering-off request with tethering on yields the forced
phone-mode refresh. -/
theorem tethering_request_dispatch_witness :
    (handleTetheringStateRequest LevelState.CriticalNotCharging Tethering.On
        (⟨State.Running, [], [], false, false, false⟩ : SMState)
      = ((⟨State.Running, [], [], false, false, false⟩ : SMState),
         [Action.logTetheringRefused]))
    ∧ (handleTetheringStateRequest LevelState.Normal Tethering.Off
        (⟨State.Running, [], [], false, false, true⟩ : SMState)
      = ((⟨State.Running, [], [], false, false, false⟩ : SMState),
         [Action.sendPhoneModeForceUpdate])) :=
  ⟨(tethering_request_dispatch LevelState.CriticalNotCharging Tethering.On
      (⟨State.Running, [], [], false, false, false⟩ : SMState)).1 (by decide),
   (tethering_request_dispatch LevelState.Normal Tethering.Off
      (⟨State.Running, [], [], false, false, true⟩ : SMState)).2.2.1 rfl⟩

end MuditaSys
